import Mathlib

/-!
Verification of the Image-Labelling repository (`src/image_analyzer.py`).

The program is one function, `analyze_image`: it calls Rekognition
`detect_labels` on an S3 object, fetches the image bytes from S3, draws
bounding boxes and captions with PIL, and shows the result.  All numeric
work of the program (normalized box fields, pixel sizes, confidences) is
modelled with exact rationals (`ℚ`); the external effects (the two AWS
calls, decoding, drawing, display, and everything printed to stdout) are
modelled as an explicit trace of `Event`s produced in program order.
-/

namespace ImageAnalyzer

/-! ## Data model (spec §3, shapes of the Rekognition response used by the code) -/

/-- `BoundingBox`: four normalized floats — `box['Left']`, `box['Top']`,
`box['Width']`, `box['Height']` (fractions of the image dimensions). -/
structure BoundingBox where
  left : ℚ
  top : ℚ
  width : ℚ
  height : ℚ
deriving DecidableEq

instance : Inhabited BoundingBox := ⟨⟨0, 0, 0, 0⟩⟩

/-- One entry of a label's `Instances` list: `instance['Confidence']` and the
optional `instance['BoundingBox']` (the code tests `'BoundingBox' in instance`). -/
structure Instance where
  confidence : ℚ
  boundingBox : Option BoundingBox
deriving DecidableEq

/-- One entry of the response's `Labels` list: `label['Name']`,
`label['Confidence']`, and `label.get('Instances')` (a missing key is
modelled as the empty list, which is equally falsy in Python). -/
structure Label where
  name : String
  confidence : ℚ
  instances : List Instance
deriving DecidableEq

/-- The decoded raster: `image.size` from `PIL.Image.open`. -/
structure Img where
  width : ℕ
  height : ℕ
deriving DecidableEq

/-! ## Python number formatting

The code prints floats with `:.1f`, `:.2f` and `:.0f`.  On our exact
rationals the faithful model of Python's fixed-point formatting is correct
rounding with ties to even, with the sign taken from the value itself
(Python prints `-0` for a negative value that rounds to zero). -/

/-- Floor of a rational (`q.num / q.den` with Euclidean division, which is
floor division because the denominator is positive). -/
def ratFloor (q : ℚ) : ℤ := q.num / (q.den : ℤ)

/-- Round to the nearest integer, ties to even. -/
def roundHalfEven (q : ℚ) : ℤ :=
  let f := ratFloor q
  let r := q - (f : ℚ)
  if r < 1/2 then f
  else if r > 1/2 then f + 1
  else if f % 2 = 0 then f else f + 1

/-- Left-pad a digit string with zeros to length `d`. -/
def padZeros (d : ℕ) (s : String) : String :=
  if s.length < d then String.mk (List.replicate (d - s.length) '0') ++ s else s

/-- Python's `format(q, '.df')`: `d` digits after the point (none when
`d = 0`), correctly rounded, sign taken from `q`. -/
def formatFixed (d : ℕ) (q : ℚ) : String :=
  let scaled := roundHalfEven (q * (10 : ℚ) ^ d)
  let sign := if q < 0 then "-" else ""
  let m := scaled.natAbs
  if d = 0 then sign ++ toString m
  else sign ++ toString (m / 10 ^ d) ++ "." ++ padZeros d (toString (m % 10 ^ d))

/-- Fuel-bounded search for the least number of decimal digits (at least
`acc`) that writes `q` exactly. -/
def decimalDigitsAux : ℕ → ℚ → ℕ → ℕ
  | 0, _, acc => acc
  | fuel + 1, q, acc =>
    if (q * (10 : ℚ) ^ acc).den = 1 then acc else decimalDigitsAux fuel q (acc + 1)

/-- Python's `str(float)` (used once, in the header line interpolating
`min_confidence`): the shortest decimal that writes the value, with at
least one digit after the point (`str(75.0) = "75.0"`).  CLI inputs are
decimal literals, which this reproduces exactly. -/
def pyFloatStr (q : ℚ) : String :=
  formatFixed (max 1 (decimalDigitsAux 40 q 0)) q

/-! ## Python's `in` on strings (used by the ClientError dispatch) -/

/-- `listIsPre n l`: `n` is a leading segment of `l`. -/
def listIsPre : List Char → List Char → Bool
  | [], _ => true
  | _ :: _, [] => false
  | a :: as, b :: bs => a == b && listIsPre as bs

/-- `listHasSub n l`: `n` occurs contiguously inside `l`. -/
def listHasSub (needle : List Char) : List Char → Bool
  | [] => listIsPre needle []
  | b :: bs => listIsPre needle (b :: bs) || listHasSub needle bs

/-- Python's `needle in hay` on strings. -/
def strHasSub (hay needle : String) : Bool := listHasSub needle.toList hay.toList

/-! ## Effects -/

/-- One PIL drawing call on the shared `draw` object. -/
inductive DrawOp where
  /-- `draw.line(points, fill=color, width=3)`. -/
  | line (points : List (ℚ × ℚ)) (fill : String) (width : ℕ)
  /-- `draw.rectangle([l, t, r, b], fill=color)`. -/
  | rectangle (left top right bottom : ℚ) (fill : String)
  /-- `draw.text(position, content, fill=color)`. -/
  | text (position : ℚ × ℚ) (content : String) (fill : String)
deriving DecidableEq

/-- One observable step of `analyze_image`, in program order. -/
inductive Event where
  /-- A `print(...)` to stdout. -/
  | print (msg : String)
  /-- The `rekognition_client.detect_labels(...)` call. -/
  | detectLabelsCall (bucket key : String) (maxLabels : ℤ) (minConfidence : ℚ)
  /-- The `s3_client.get_object(...)` call. -/
  | s3GetObjectCall (bucket key : String)
  /-- `Image.open(io.BytesIO(image_data))`. -/
  | decodeImage
  /-- A drawing call mutating the raster. -/
  | draw (op : DrawOp)
  /-- `image.show(title=...)`. -/
  | showImage (title : String)
  /-- `traceback.print_exc()` in the catch-all handler (line 196). -/
  | printTraceback
deriving DecidableEq

/-- `true` for every event that is not the object-store fetch, the image
decode, a drawing call, or the display. -/
def nonEffect : Event → Bool
  | .s3GetObjectCall _ _ => false
  | .decodeImage => false
  | .draw _ => false
  | .showImage _ => false
  | _ => true

/-- Project out a `draw.line` call: its point list and color. -/
def lineOf : Event → Option (List (ℚ × ℚ) × String)
  | .draw (.line pts c _) => some (pts, c)
  | _ => none

/-- Project out a `draw.text` call: position, content, color. -/
def textOf : Event → Option ((ℚ × ℚ) × String × String)
  | .draw (.text pos s c) => some (pos, s, c)
  | _ => none

/-- Project out a `draw.rectangle` call. -/
def rectOf : Event → Option (ℚ × ℚ × ℚ × ℚ × String)
  | .draw (.rectangle a b c d f) => some (a, b, c, d, f)
  | _ => none

/-- `true` exactly on the display event. -/
def isShowImage : Event → Bool
  | .showImage _ => true
  | _ => false

/-! ## The renderer (source lines 92–161) -/

/-- `colors = ["red", "blue", ...]` (line 93). -/
def colors : List String :=
  ["red", "blue", "green", "yellow", "purple", "orange", "cyan", "magenta",
   "lime", "pink", "teal", "brown", "navy", "olive"]

/-- The loop's mutable state: `color_index`, `found_boxes`, and a count of
caption attempts so far (used to index the font-failure oracle). -/
structure RState where
  colorIndex : ℕ
  foundBoxes : Bool
  capIdx : ℕ
deriving DecidableEq

/-- Caption vertical placement (lines 120–126):
`text_y_position = top + 5`, overwritten with `top + height + 5` when
`top < 15`, else with `top - 15` when `top + height + 20 > img_height`
and `top > 15`. -/
def textYPosition (top height imgHeight : ℚ) : ℚ :=
  if top < 15 then top + height + 5
  else if top + height + 20 > imgHeight then
    (if top > 15 then top - 15 else top + 5)
  else top + 5

/-- How the try block of lines 129–155 plays out for one caption.  The
try block computes the caption string and the estimates, then calls
`draw.rectangle` (line 147) and `draw.text` (line 148).  The rectangle has
ordered corners (the estimates are nonnegative) and a constant black fill,
so the raising call is `draw.text`, which runs after the rectangle is
already on the raster.  The handler arm prints a warning and retries
`draw.text` with the bare label name (line 155) — and that call can itself
raise, in which case the exception escapes the loop to the catch-all
handler at line 194.  (The ImportError arm is dead: nothing is imported
inside the try block.) -/
inductive CaptionOutcome where
  /-- The styled `draw.text` of line 148 succeeds. -/
  | ok
  /-- Line 148 raises with message `emsg`; the fallback `draw.text` of
  line 155 succeeds. -/
  | fallback (emsg : String)
  /-- Line 148 raises with message `emsg`; the fallback `draw.text` of
  line 155 raises with message `efatal`, which escapes to line 194. -/
  | fatal (emsg efatal : String)
deriving DecidableEq

/-- `true` exactly when the caption failure escapes the loop. -/
def CaptionOutcome.isFatal : CaptionOutcome → Bool
  | .fatal _ _ => true
  | _ => false

/-- The body of the inner loop for one instance that carries a
`BoundingBox` (lines 104–158).  Returns the events produced and, when the
fallback `draw.text` raised as well, the message of the exception that
escapes the loop.  On the `fallback` path the black background drawn at
line 147 is already on the raster (sized from the styled caption string);
the bare name is drawn on top and execution continues at line 158.  On the
`fatal` path the warning of line 154 has been printed, the raising
`draw.text` draws nothing, and line 158 is never reached. -/
def drawBoxedInstance (W H : ℚ) (labelName currentColor : String) (conf : ℚ)
    (box : BoundingBox) (outcome : CaptionOutcome) : List Event × Option String :=
  let left := W * box.left
  let top := H * box.top
  let width := W * box.width
  let height := H * box.height
  let points := [(left, top), (left + width, top), (left + width, top + height),
                 (left, top + height), (left, top)]
  let textY := textYPosition top height H
  let textPosition : ℚ × ℚ := (left + 5, textY)
  let lineEv : Event := .draw (.line points currentColor 3)
  let textToDraw := labelName ++ " (" ++ formatFixed 1 conf ++ "%)"
  let textWidthEstimate : ℚ := (textToDraw.length : ℚ) * 6
  let textHeightEstimate : ℚ := 10
  let bgEv : Event := .draw (.rectangle (textPosition.1 - 2) (textPosition.2 - 2)
      (textPosition.1 + textWidthEstimate + 2)
      (textPosition.2 + textHeightEstimate + 2) "black")
  let drewEv : Event := .print ("  Drew box for: " ++ labelName ++ " (Confidence: " ++
    formatFixed 2 conf ++ "%) at [" ++ formatFixed 0 left ++ "," ++ formatFixed 0 top ++
    "," ++ formatFixed 0 width ++ "," ++ formatFixed 0 height ++ "] with color " ++
    currentColor)
  match outcome with
  | .ok =>
    ([lineEv, bgEv, .draw (.text textPosition textToDraw currentColor), drewEv], none)
  | .fallback emsg =>
    ([lineEv, bgEv,
      .print ("Warning: Could not draw text with confidence, falling back. Error: " ++ emsg),
      .draw (.text textPosition labelName currentColor), drewEv], none)
  | .fatal emsg efatal =>
    ([lineEv, bgEv,
      .print ("Warning: Could not draw text with confidence, falling back. Error: " ++ emsg)],
     some efatal)

/-- What a stretch of the drawing loop produced: its events, the loop
state afterwards, and the message of an exception that escaped it, if
one did. -/
structure RenderResult where
  events : List Event
  state : RState
  raised : Option String
deriving DecidableEq

/-- One iteration of `for instance in label['Instances']` (line 101): only
an instance with a `'BoundingBox'` key draws anything, sets `found_boxes`,
and consumes one caption attempt. -/
def renderInstance (W H : ℚ) (labelName currentColor : String)
    (fontFail : ℕ → CaptionOutcome) (inst : Instance) (s : RState) : RenderResult :=
  match inst.boundingBox with
  | none => ⟨[], s, none⟩
  | some box =>
    let d := drawBoxedInstance W H labelName currentColor inst.confidence box
      (fontFail s.capIdx)
    ⟨d.1, { s with foundBoxes := true, capIdx := s.capIdx + 1 }, d.2⟩

/-- The inner loop over a label's instances; an escaped exception ends
the loop at once. -/
def renderInstances (W H : ℚ) (labelName currentColor : String)
    (fontFail : ℕ → CaptionOutcome) :
    List Instance → RState → RenderResult
  | [], s => ⟨[], s, none⟩
  | i :: rest, s =>
    let p := renderInstance W H labelName currentColor fontFail i s
    match p.raised with
    | some e => ⟨p.events, p.state, some e⟩
    | none =>
      let q := renderInstances W H labelName currentColor fontFail rest p.state
      ⟨p.events ++ q.events, q.state, q.raised⟩

/-- One iteration of `for label in labels` (lines 97–100): a label with a
truthy (nonempty) `Instances` list takes `colors[color_index % len(colors)]`
and advances `color_index` by one, whether or not any instance carries a
box. -/
def renderLabel (W H : ℚ) (fontFail : ℕ → CaptionOutcome) (lab : Label)
    (s : RState) : RenderResult :=
  if lab.instances.isEmpty then ⟨[], s, none⟩
  else
    let currentColor := colors.getD (s.colorIndex % colors.length) ""
    renderInstances W H lab.name currentColor fontFail lab.instances
      { s with colorIndex := s.colorIndex + 1 }

/-- The outer loop over all labels; an escaped exception ends it at once. -/
def renderLabels (W H : ℚ) (fontFail : ℕ → CaptionOutcome) :
    List Label → RState → RenderResult
  | [], s => ⟨[], s, none⟩
  | lab :: rest, s =>
    let p := renderLabel W H fontFail lab s
    match p.raised with
    | some e => ⟨p.events, p.state, some e⟩
    | none =>
      let q := renderLabels W H fontFail rest p.state
      ⟨p.events ++ q.events, q.state, q.raised⟩

/-! ## The surrounding control flow (source lines 20–196)

The two AWS calls are external; their outcomes enter the model as
`Except AwsFailure _` parameters.  A raised exception jumps to the
`except` handlers at the bottom of `analyze_image`. -/

/-- The exceptions the code distinguishes: `NoCredentialsError`,
`PartialCredentialsError`, and `ClientError` with
`e.response["Error"]["Code"]`, `e.response["Error"]["Message"]` (the
`.get` fallback to `str(e)` is applied), and `str(e)` itself. -/
inductive AwsFailure where
  | noCredentials
  | partialCredentials
  | clientError (code : String) (message : String) (estr : String)
deriving DecidableEq

/-- Python truthiness of an optional string (`None` and `""` are falsy). -/
def truthyOpt : Option String → Bool
  | none => false
  | some s => !(s == "")

/-- `aws_profile_name if aws_profile_name else 'default'` (line 46), also
`aws_profile_name or 'default'` (line 181). -/
def profileOrDefault (p : Option String) : String :=
  if truthyOpt p then p.getD "" else "default"

/-- The `ClientError` handler (lines 173–191). -/
def clientErrorEvents (bucketName imageKey : String) (awsProfileName : Option String)
    (code message estr : String) : List Event :=
  if code = "NoSuchKey" then
    [.print ("Error: The image key '" ++ imageKey ++ "' was not found in bucket '" ++
      bucketName ++ "'.")]
  else if code = "NoSuchBucket" then
    [.print ("Error: The S3 bucket '" ++ bucketName ++ "' does not exist.")]
  else if code = "AccessDenied" then
    [.print ("Error: Access Denied. Check IAM permissions for S3 or Rekognition for profile '" ++
      profileOrDefault awsProfileName ++ "'."),
     .print ("Details: " ++ message)]
  else if code = "InvalidS3ObjectException" ||
      (strHasSub estr "Rekognition" &&
        (strHasSub estr "Unable to get image" || strHasSub estr "Unable to access S3 object")) then
    [.print "Error: Rekognition could not access or process the image in S3. This could be due to S3 permissions for Rekognition service role, the image not being accessible, or an unsupported image format.",
     .print ("Details: " ++ message)]
  else if code = "ExpiredToken" then
    [.print "Error: AWS credentials have expired or are invalid. Please reconfigure or refresh your credentials.",
     .print ("Details: " ++ message)]
  else
    [.print ("An AWS ClientError occurred: " ++ code ++ " - " ++ message)]

/-- The `except` clauses (lines 168–191).  The `FileNotFoundError` and
catch-all arms (lines 192–196) are unreachable in this model: the font
load that could raise `FileNotFoundError` is commented out, and rendering
failures are caught inside the loop. -/
def awsFailureEvents (bucketName imageKey : String) (awsProfileName : Option String) :
    AwsFailure → List Event
  | .noCredentials =>
    [.print "AWS credentials not found. Configure AWS CLI or ensure your environment has credentials.",
     .print "Try: `aws configure --profile <your-profile-name>` if using a named profile."]
  | .partialCredentials =>
    [.print "Incomplete AWS credentials. Ensure Access Key ID and Secret Access Key are correctly configured."]
  | .clientError code message estr =>
    clientErrorEvents bucketName imageKey awsProfileName code message estr

/-- Session bootstrap and diagnostics up to and including the
`detect_labels` call (lines 22–66).  `effectiveRegion` models
`session.region_name`, resolved externally by boto3. -/
def setupEvents (bucketName imageKey : String)
    (awsProfileName regionName effectiveRegion : Option String)
    (maxLabels : ℤ) (minConfidence : ℚ) : List Event :=
  (if !truthyOpt regionName && !truthyOpt effectiveRegion then
    [Event.print "Warning: AWS Region not specified and not found in profile/default. Rekognition might use a default region or fail if region is required."]
  else []) ++
  [.print ("Attempting to access image: s3://" ++ bucketName ++ "/" ++ imageKey),
   .print ("Using AWS Profile: " ++ profileOrDefault awsProfileName)] ++
  (if truthyOpt regionName then
    [Event.print ("Using AWS Region (specified): " ++ regionName.getD "")]
  else if truthyOpt effectiveRegion then
    [Event.print ("Using AWS Region (from profile/default): " ++ effectiveRegion.getD "")]
  else
    [Event.print "AWS Region: Not explicitly specified, relying on SDK defaults (potentially us-east-1 for some services)."]) ++
  [.print ("\nRequesting label detection from Amazon Rekognition for " ++ imageKey ++ "..."),
   .detectLabelsCall bucketName imageKey maxLabels minConfidence]

/-- The per-label lines of the label listing (lines 75–79). -/
def labelPrintEvents (lab : Label) : List Event :=
  [.print ("- Label: " ++ lab.name),
   .print ("  Confidence: " ++ formatFixed 2 lab.confidence ++ "%")] ++
  (if lab.instances.isEmpty then []
   else [Event.print ("  Instances: " ++ toString lab.instances.length)])

/-- The whole of `analyze_image` as the trace of events it produces, in
program order.  `detect` is the outcome of the `detect_labels` call,
`fetch` the outcome of `get_object` plus `Image.open` (an image of the
decoded size), and `fontFail` says how the `n`-th caption's drawing plays
out.  A caption exception that escapes the loop (both `draw.text` calls
raised) lands in the catch-all `except Exception` at line 194, which
prints the generic message and a traceback; the run then ends without the
found-boxes check or the display. -/
def analyzeImage (bucketName imageKey : String) (maxLabels : ℤ) (minConfidence : ℚ)
    (awsProfileName regionName effectiveRegion : Option String)
    (detect : Except AwsFailure (List Label))
    (fetch : Except AwsFailure Img)
    (fontFail : ℕ → CaptionOutcome) : List Event :=
  setupEvents bucketName imageKey awsProfileName regionName effectiveRegion
    maxLabels minConfidence ++
  match detect with
  | .error f => awsFailureEvents bucketName imageKey awsProfileName f
  | .ok labels =>
    if labels.isEmpty then
      [.print "No labels detected or labels did not meet the minimum confidence level."]
    else
      [.print ("\n--- Detected Labels (Top " ++ toString maxLabels ++
        " or fewer, Min Confidence: " ++ pyFloatStr minConfidence ++ "%) ---")] ++
      (labels.map labelPrintEvents).flatten ++
      [.print "--- End of Labels ---",
       .print "\nRetrieving image from S3 for drawing bounding boxes...",
       .s3GetObjectCall bucketName imageKey] ++
      match fetch with
      | .error f => awsFailureEvents bucketName imageKey awsProfileName f
      | .ok img =>
        let rendered := renderLabels (img.width : ℚ) (img.height : ℚ) fontFail labels
          ⟨0, false, 0⟩
        [.decodeImage,
         .print "\nDrawing bounding boxes for detected instances..."] ++
        rendered.events ++
        match rendered.raised with
        | some e => [.print ("An unexpected error occurred: " ++ e), .printTraceback]
        | none =>
          (if rendered.state.foundBoxes then []
           else [Event.print "No bounding boxes were generated as no instances with bounding box data were found."]) ++
          [.print "\nDisplaying image with bounding boxes in a pop-up window...",
           .showImage ("Analyzed: " ++ imageKey),
           .print "Pop-up window initiated. Close the window to end the script."]

/-! ## Counting functions used by the claims -/

/-- The number of labels having at least one instance that carries a
bounding box (the counting rule the spec states for the color index). -/
def labelsWithBoxCount (ls : List Label) : ℕ :=
  (ls.filter (fun l => l.instances.any (fun i => i.boundingBox.isSome))).length

/-- The number of labels whose `Instances` list is nonempty (the counting
rule the code actually applies to `color_index`). -/
def labelsWithInstancesCount (ls : List Label) : ℕ :=
  (ls.filter (fun l => !l.instances.isEmpty)).length

/-- The total number of instances that carry a bounding box. -/
def totalBoxedInstances (ls : List Label) : ℕ :=
  (ls.map (fun l => (l.instances.filter (fun i => i.boundingBox.isSome)).length)).sum

/-- The five corner points of the stroked outline for a box, as computed
at lines 105–116: the pixel rectangle `(W·left, H·top, W·width, H·height)`
closed back to its first corner. -/
def outlinePoints (W H : ℚ) (b : BoundingBox) : List (ℚ × ℚ) :=
  [(W * b.left, H * b.top), (W * b.left + W * b.width, H * b.top),
   (W * b.left + W * b.width, H * b.top + H * b.height),
   (W * b.left, H * b.top + H * b.height), (W * b.left, H * b.top)]

/-! ## Helper lemmas -/

lemma drawBoxedInstance_lineOf (W H : ℚ) (nm c : String) (conf : ℚ) (b : BoundingBox)
    (oc : CaptionOutcome) :
    (drawBoxedInstance W H nm c conf b oc).1.filterMap lineOf = [(outlinePoints W H b, c)] := by
  cases oc <;> simp [drawBoxedInstance, lineOf, outlinePoints]

lemma drawBoxedInstance_textOf_ok (W H : ℚ) (nm c : String) (conf : ℚ) (b : BoundingBox) :
    (drawBoxedInstance W H nm c conf b .ok).1.filterMap textOf =
      [((W * b.left + 5, textYPosition (H * b.top) (H * b.height) H),
        nm ++ " (" ++ formatFixed 1 conf ++ "%)", c)] := by
  simp [drawBoxedInstance, textOf]

lemma drawBoxedInstance_raised (W H : ℚ) (nm c : String) (conf : ℚ) (b : BoundingBox)
    (oc : CaptionOutcome) (h : oc.isFatal = false) :
    (drawBoxedInstance W H nm c conf b oc).2 = none := by
  cases oc <;> simp_all [drawBoxedInstance, CaptionOutcome.isFatal]

lemma renderInstance_colorIndex (W H : ℚ) (nm c : String) (ff : ℕ → CaptionOutcome)
    (i : Instance) (s : RState) :
    (renderInstance W H nm c ff i s).state.colorIndex = s.colorIndex := by
  cases h : i.boundingBox <;> simp [renderInstance, h]

lemma renderInstance_raised (W H : ℚ) (nm c : String) (ff : ℕ → CaptionOutcome)
    (hnf : ∀ n, (ff n).isFatal = false) (i : Instance) (s : RState) :
    (renderInstance W H nm c ff i s).raised = none := by
  cases h : i.boundingBox <;>
    simp [renderInstance, h, drawBoxedInstance_raised _ _ _ _ _ _ _ (hnf s.capIdx)]

lemma renderInstances_colorIndex (W H : ℚ) (nm c : String) (ff : ℕ → CaptionOutcome) :
    ∀ (insts : List Instance) (s : RState),
      (renderInstances W H nm c ff insts s).state.colorIndex = s.colorIndex
  | [], _ => rfl
  | i :: rest, s => by
    simp only [renderInstances]
    split <;>
      simp [renderInstances_colorIndex W H nm c ff rest, renderInstance_colorIndex]

lemma renderInstances_raised (W H : ℚ) (nm c : String) (ff : ℕ → CaptionOutcome)
    (hnf : ∀ n, (ff n).isFatal = false) :
    ∀ (insts : List Instance) (s : RState),
      (renderInstances W H nm c ff insts s).raised = none
  | [], _ => rfl
  | i :: rest, s => by
    simp only [renderInstances]
    split
    · next e heq => rw [renderInstance_raised W H nm c ff hnf] at heq; exact absurd heq (by simp)
    · simp [renderInstances_raised W H nm c ff hnf rest]

lemma renderLabel_colorIndex (W H : ℚ) (ff : ℕ → CaptionOutcome) (lab : Label) (s : RState) :
    (renderLabel W H ff lab s).state.colorIndex =
      s.colorIndex + (if lab.instances.isEmpty then 0 else 1) := by
  unfold renderLabel
  split
  · simp
  · simp [renderInstances_colorIndex]

lemma renderLabel_raised (W H : ℚ) (ff : ℕ → CaptionOutcome)
    (hnf : ∀ n, (ff n).isFatal = false) (lab : Label) (s : RState) :
    (renderLabel W H ff lab s).raised = none := by
  unfold renderLabel
  split
  · rfl
  · exact renderInstances_raised _ _ _ _ _ hnf _ _

lemma renderLabels_colorIndex (W H : ℚ) (ff : ℕ → CaptionOutcome)
    (hnf : ∀ n, (ff n).isFatal = false) :
    ∀ (ls : List Label) (s : RState),
      (renderLabels W H ff ls s).state.colorIndex = s.colorIndex + labelsWithInstancesCount ls
  | [], _ => by simp [renderLabels, labelsWithInstancesCount]
  | lab :: rest, s => by
    simp only [renderLabels]
    split
    · next e heq => rw [renderLabel_raised W H ff hnf] at heq; exact absurd heq (by simp)
    · rw [renderLabels_colorIndex W H ff hnf rest, renderLabel_colorIndex]
      simp only [labelsWithInstancesCount, List.filter_cons]
      by_cases h : lab.instances.isEmpty <;> simp [h] <;> try omega

lemma renderLabels_raised (W H : ℚ) (ff : ℕ → CaptionOutcome)
    (hnf : ∀ n, (ff n).isFatal = false) :
    ∀ (ls : List Label) (s : RState), (renderLabels W H ff ls s).raised = none
  | [], _ => rfl
  | lab :: rest, s => by
    simp only [renderLabels]
    split
    · next e heq => rw [renderLabel_raised W H ff hnf] at heq; exact absurd heq (by simp)
    · simp [renderLabels_raised W H ff hnf rest]

lemma renderInstances_lineOf (W H : ℚ) (nm c : String) (ff : ℕ → CaptionOutcome)
    (hnf : ∀ n, (ff n).isFatal = false) :
    ∀ (insts : List Instance) (s : RState),
      (renderInstances W H nm c ff insts s).events.filterMap lineOf =
        insts.filterMap (fun i => i.boundingBox.map (fun b => (outlinePoints W H b, c)))
  | [], _ => rfl
  | i :: rest, s => by
    simp only [renderInstances]
    split
    · next e heq => rw [renderInstance_raised W H nm c ff hnf] at heq; exact absurd heq (by simp)
    · simp only [List.filterMap_append, List.filterMap_cons]
      rw [renderInstances_lineOf W H nm c ff hnf rest]
      cases h : i.boundingBox <;>
        simp [renderInstance, h, drawBoxedInstance_lineOf]

lemma renderInstances_textOf_ok (W H : ℚ) (nm c : String) :
    ∀ (insts : List Instance) (s : RState),
      (renderInstances W H nm c (fun _ => .ok) insts s).events.filterMap textOf =
        insts.filterMap (fun i => i.boundingBox.map (fun b =>
          ((W * b.left + 5, textYPosition (H * b.top) (H * b.height) H),
           nm ++ " (" ++ formatFixed 1 i.confidence ++ "%)", c)))
  | [], _ => rfl
  | i :: rest, s => by
    simp only [renderInstances]
    split
    · next e heq =>
        rw [renderInstance_raised W H nm c (fun _ => .ok) (fun _ => rfl)] at heq
        exact absurd heq (by simp)
    · simp only [List.filterMap_append, List.filterMap_cons]
      rw [renderInstances_textOf_ok W H nm c rest]
      cases h : i.boundingBox <;>
        simp [renderInstance, h, drawBoxedInstance_textOf_ok]

lemma length_filterMap_map_option {α β γ : Type _} (f : α → Option β) (g : β → γ) :
    ∀ l : List α,
      (l.filterMap (fun a => (f a).map g)).length = (l.filter (fun a => (f a).isSome)).length
  | [] => rfl
  | a :: rest => by
    simp only [List.filterMap_cons, List.filter_cons]
    cases h : f a <;>
      simp [h, length_filterMap_map_option f g rest]

lemma length_filterMap_boundingBox {γ : Type _} (g : Instance → BoundingBox → γ) :
    ∀ l : List Instance, (∀ i ∈ l, i.boundingBox.isSome) →
      (l.filterMap (fun i => i.boundingBox.map (g i))).length = l.length
  | [], _ => rfl
  | i :: rest, h => by
    cases hb : i.boundingBox with
    | none => exact absurd (h i (by simp)) (by simp [hb])
    | some b =>
      simp only [List.filterMap_cons, hb, Option.map_some', List.length_cons]
      rw [length_filterMap_boundingBox g rest (fun j hj => h j (by simp [hj]))]

lemma listIsPre_self_append : ∀ (n post : List Char), listIsPre n (n ++ post) = true
  | [], _ => rfl
  | a :: as, post => by simp [listIsPre, listIsPre_self_append as post]

lemma listHasSub_nil_needle : ∀ l : List Char, listHasSub [] l = true
  | [] => rfl
  | _ :: bs => by simp [listHasSub, listHasSub_nil_needle bs]

lemma listHasSub_append_mid : ∀ (pre n post : List Char), listHasSub n (pre ++ (n ++ post)) = true
  | [], n, post => by
    cases n with
    | nil => simpa using listHasSub_nil_needle post
    | cons m ms =>
      simp only [List.nil_append, listHasSub, Bool.or_eq_true]
      exact Or.inl (listIsPre_self_append (m :: ms) post)
  | b :: bs, n, post => by
    simp [listHasSub, listHasSub_append_mid bs n post]

/-- A string built around `b` contains `b` as a substring. -/
lemma strHasSub_append (a b c : String) : strHasSub (a ++ b ++ c) b = true := by
  have h : (a ++ b ++ c).toList = a.toList ++ (b.toList ++ c.toList) := by
    show (a ++ b ++ c).data = a.data ++ (b.data ++ c.data)
    simp [String.data_append]
  rw [strHasSub, h]
  exact listHasSub_append_mid _ _ _

lemma renderLabels_lineOf_length (W H : ℚ) (ff : ℕ → CaptionOutcome)
    (hnf : ∀ n, (ff n).isFatal = false) :
    ∀ (ls : List Label) (s : RState),
      ((renderLabels W H ff ls s).events.filterMap lineOf).length = totalBoxedInstances ls
  | [], _ => rfl
  | lab :: rest, s => by
    have hrest := fun s2 => renderLabels_lineOf_length W H ff hnf rest s2
    simp only [renderLabels]
    split
    · next e heq => rw [renderLabel_raised W H ff hnf] at heq; exact absurd heq (by simp)
    · simp only [List.filterMap_append, List.length_append, hrest]
      unfold renderLabel
      split
      · next h =>
        rw [List.isEmpty_iff] at h
        simp [totalBoxedInstances, h]
      · rw [renderInstances_lineOf W H lab.name
            (colors.getD (s.colorIndex % colors.length) "") ff hnf,
          length_filterMap_map_option]
        simp [totalBoxedInstances]

/-! ## Concrete fixtures -/

/-- A small in-range bounding box. -/
def exBox : BoundingBox := ⟨1/10, 1/10, 1/10, 1/10⟩

/-- A second bounding box. -/
def exBox2 : BoundingBox := ⟨1/2, 1/2, 1/5, 1/5⟩

/-- A label whose only instance carries no bounding box. -/
def labelNoBox : Label := ⟨"Sky", 95, [⟨90, none⟩]⟩

/-- A label whose only instance carries a bounding box. -/
def labelWithBox : Label := ⟨"Car", 95, [⟨90, some exBox⟩]⟩

/-- A label with two instances, each carrying a bounding box. -/
def labelTwoBoxes : Label := ⟨"Dog", 88, [⟨70, some exBox⟩, ⟨60, some exBox2⟩]⟩

/-! ## Claim theorems -/

/-- C1: for every decoded image of width `W` and height `H` and every
bounding box, the pixel rectangle used for drawing is exactly
`(left·W, top·H, width·W, height·H)` with no clamping — the drawn outline
is the closure of that rectangle for arbitrary (also out-of-range) box
fields; in particular a 1000×500 image with box
`{left: 0.1, top: 0.2, width: 0.3, height: 0.4}` gives the pixel rect
`(100, 100, 300, 200)`, and a malformed box `{-0.5, 1.5, 2, 1}` draws
outside the image bounds. -/
theorem pixelRect_exact_no_clamping (W H : ℚ) (nm c : String) (conf : ℚ)
    (box : BoundingBox) (oc : CaptionOutcome) :
    ((drawBoxedInstance W H nm c conf box oc).1.head? =
      some (.draw (.line [(box.left * W, box.top * H),
        (box.left * W + box.width * W, box.top * H),
        (box.left * W + box.width * W, box.top * H + box.height * H),
        (box.left * W, box.top * H + box.height * H),
        (box.left * W, box.top * H)] c 3))) ∧
    ((drawBoxedInstance 1000 500 "Car" "red" 99 ⟨1/10, 1/5, 3/10, 2/5⟩ .ok).1.head? =
      some (.draw (.line [(100, 100), (100 + 300, 100), (100 + 300, 100 + 200),
        (100, 100 + 200), (100, 100)] "red" 3))) ∧
    ((drawBoxedInstance 1000 500 "Car" "red" 99 ⟨-1/2, 3/2, 2, 1⟩ .ok).1.head? =
      some (.draw (.line [(-500, 750), (1500, 750), (1500, 1250), (-500, 1250),
        (-500, 750)] "red" 3))) := by
  refine ⟨?_, ?_, ?_⟩
  · cases oc <;> norm_num [drawBoxedInstance, mul_comm]
  · norm_num [drawBoxedInstance, mul_comm]
  · norm_num [drawBoxedInstance, mul_comm]

/-- C2 counterexample: the claim says a box with pixel top 100 and pixel
height 380 on a 500px-tall image (bottom + 20 equals the image height)
gets its caption at `top - 15 = 85`; the code's condition at line 123 is
the strict `top + height + 20 > img_height`, which fails at equality, so
the caption stays at the default `top + 5 = 105`. -/
theorem caption_near_bottom_cex :
    textYPosition (500 * (1/5 : ℚ)) (500 * (19/25 : ℚ)) 500 = 100 + 5 ∧
    ((drawBoxedInstance 1000 500 "Person" "red" 50 ⟨0, 1/5, 1/10, 19/25⟩ .ok).1[2]? =
      some (.draw (.text (5, 105) "Person (50.0%)" "red"))) ∧
    ¬((105 : ℚ) = 100 - 15) := by
  refine ⟨by norm_num [textYPosition], ?_, by norm_num⟩
  have hs : formatFixed 1 (50 : ℚ) = "50.0" := by
    norm_num [formatFixed, roundHalfEven, ratFloor]
    decide
  norm_num [drawBoxedInstance, textYPosition, hs]
  decide

/-- C2 amended: for every box with pixel top > 15, the caption moves to
`top - 15` only when the pixel bottom plus 20 strictly exceeds the image
height; when `top + height + 20` equals the image height exactly (the
claim's own example: top 100, height 380, image height 500) the caption
stays at the default `top + 5`. -/
theorem caption_near_bottom_policy (top height imgH : ℚ) :
    (15 < top → imgH < top + height + 20 → textYPosition top height imgH = top - 15) ∧
    (15 ≤ top → top + height + 20 = imgH → textYPosition top height imgH = top + 5) := by
  constructor <;> intro h1 h2 <;> simp only [textYPosition] <;> split_ifs <;>
    first | rfl | linarith

/-- Witness for `caption_near_bottom_policy` at concrete inputs. -/
theorem caption_near_bottom_policy_witness :
    textYPosition 100 390 500 = 100 - 15 ∧ textYPosition 100 380 500 = 100 + 5 :=
  ⟨(caption_near_bottom_policy 100 390 500).1 (by norm_num) (by norm_num),
   (caption_near_bottom_policy 100 380 500).2 (by norm_num) (by norm_num)⟩

/-- C4: a box whose pixel top is below 15 has its caption at
`top + height + 5` (below the box's bottom edge) instead of the default
`top + 5`; a box with top ≥ 15 that does not meet the near-bottom
condition `top + height + 20 > img_height` keeps the default `top + 5`. -/
theorem caption_near_top_policy (top height imgH : ℚ) :
    (top < 15 → textYPosition top height imgH = top + height + 5) ∧
    (15 ≤ top → ¬(top + height + 20 > imgH) → textYPosition top height imgH = top + 5) := by
  constructor
  · intro h1
    simp only [textYPosition]
    split_ifs <;> first | rfl | linarith
  · intro h1 h2
    simp only [textYPosition]
    split_ifs <;> first | rfl | linarith

/-- Witness for `caption_near_top_policy` at concrete inputs. -/
theorem caption_near_top_policy_witness :
    textYPosition 10 200 500 = 10 + 200 + 5 ∧ textYPosition 100 50 500 = 100 + 5 :=
  ⟨(caption_near_top_policy 10 200 500).1 (by norm_num),
   (caption_near_top_policy 100 50 500).2 (by norm_num) (by norm_num)⟩

/-- C9: on the normal path, the caption's background rectangle is sized
from the fixed 6px-per-character, 10px-height estimate: with caption text
of length `L` drawn at `(x, y)`, the one rectangle drawn spans exactly
`[x - 2, y - 2]` to `[x + 6·L + 2, y + 10 + 2]`. -/
theorem caption_bg_estimate (W H : ℚ) (nm c : String) (conf : ℚ) (box : BoundingBox) :
    (drawBoxedInstance W H nm c conf box .ok).1.filterMap rectOf =
      [(W * box.left + 5 - 2,
        textYPosition (H * box.top) (H * box.height) H - 2,
        W * box.left + 5 + ((nm ++ " (" ++ formatFixed 1 conf ++ "%)").length : ℚ) * 6 + 2,
        textYPosition (H * box.top) (H * box.height) H + 10 + 2,
        "black")] := by
  simp [drawBoxedInstance, rectOf]

/-- C10: on the normal path the background rectangle is always filled
black, whatever palette color `c` the label was assigned, and it is drawn
immediately before the caption text, which is drawn in `c` on top of it. -/
theorem caption_bg_black_under_text (W H : ℚ) (nm c : String) (conf : ℚ) (box : BoundingBox) :
    ((drawBoxedInstance W H nm c conf box .ok).1[1]? =
      some (.draw (.rectangle (W * box.left + 5 - 2)
        (textYPosition (H * box.top) (H * box.height) H - 2)
        (W * box.left + 5 + ((nm ++ " (" ++ formatFixed 1 conf ++ "%)").length : ℚ) * 6 + 2)
        (textYPosition (H * box.top) (H * box.height) H + 10 + 2)
        "black"))) ∧
    ((drawBoxedInstance W H nm c conf box .ok).1[2]? =
      some (.draw (.text (W * box.left + 5, textYPosition (H * box.top) (H * box.height) H)
        (nm ++ " (" ++ formatFixed 1 conf ++ "%)") c))) := by
  constructor <;> simp [drawBoxedInstance]

/-- C3 counterexample: with the labels `[Sky (one instance, no box),
Car (one instance with a box)]` only one label has a boxed instance, yet
the final color index is 2, not 1, and Car's outline is drawn in
`colors[1] = "blue"` rather than `colors[0] = "red"` as the claim's
counting rule (advance only per label-with-boxes) would require: the code
(line 98) advances the index for any label with a nonempty `Instances`
list. -/
theorem color_index_advance_cex :
    labelsWithBoxCount [labelNoBox, labelWithBox] = 1 ∧
    (renderLabels 100 100 (fun _ => .ok) [labelNoBox, labelWithBox]
      ⟨0, false, 0⟩).state.colorIndex = 2 ∧
    ((renderLabels 100 100 (fun _ => .ok) [labelNoBox, labelWithBox]
      ⟨0, false, 0⟩).events.filterMap lineOf).map Prod.snd = ["blue"] ∧
    colors.getD (0 % colors.length) "" = "red" := by
  refine ⟨by decide, ?_, ?_, rfl⟩
  · rw [renderLabels_colorIndex 100 100 (fun _ => .ok) (fun _ => rfl)]
    decide
  · simp only [renderLabels, renderLabel, List.filterMap_append, List.map_append]
    simp [labelNoBox, labelWithBox, renderInstances_lineOf _ _ _ _ (fun _ => .ok) (fun _ => rfl),
      renderInstances_colorIndex, renderInstances_raised _ _ _ _ (fun _ => .ok) (fun _ => rfl),
      colors]

/-- C3 amended: the palette color index advances by exactly 1 per label
whose `Instances` list is nonempty — even when none of those instances
carries a bounding box — and every outline a label draws uses the palette
entry at the label's starting index modulo the palette length. -/
theorem color_index_per_label (W H : ℚ) (ff : ℕ → CaptionOutcome) (ls : List Label)
    (s : RState) (hnf : ∀ n, (ff n).isFatal = false) :
    ((renderLabels W H ff ls s).state.colorIndex =
      s.colorIndex + labelsWithInstancesCount ls) ∧
    (∀ (lab : Label) (s2 : RState),
      ∀ p ∈ (renderLabel W H ff lab s2).events.filterMap lineOf,
        p.2 = colors.getD (s2.colorIndex % colors.length) "") := by
  refine ⟨renderLabels_colorIndex W H ff hnf ls s, ?_⟩
  intro lab s2 p hp
  unfold renderLabel at hp
  split at hp
  · simp at hp
  · rw [renderInstances_lineOf W H lab.name
      (colors.getD (s2.colorIndex % colors.length) "") ff hnf] at hp
    obtain ⟨i, _, hfi⟩ := List.mem_filterMap.mp hp
    obtain ⟨b, _, hpb⟩ := Option.map_eq_some'.mp hfi
    rw [← hpb]

/-- Witness for `color_index_per_label`: the two-label fixture ends at
color index 2, and Car's single outline (drawn from state with color
index 1) uses `colors[1 % 14]`. -/
theorem color_index_per_label_witness :
    ((renderLabels 100 100 (fun _ => .ok) [labelNoBox, labelWithBox]
      ⟨0, false, 0⟩).state.colorIndex =
        0 + labelsWithInstancesCount [labelNoBox, labelWithBox]) ∧
    (outlinePoints 100 100 exBox, "blue").2 = colors.getD (1 % colors.length) "" := by
  constructor
  · exact (color_index_per_label 100 100 (fun _ => .ok) [labelNoBox, labelWithBox]
      ⟨0, false, 0⟩ (fun _ => rfl)).1
  · have hp : (outlinePoints 100 100 exBox, "blue") ∈
        (renderLabel 100 100 (fun _ => .ok) labelWithBox ⟨1, false, 0⟩).events.filterMap
          lineOf := by
      simp [renderLabel, labelWithBox,
        renderInstances_lineOf _ _ _ _ (fun _ => .ok) (fun _ => rfl), colors]
    exact (color_index_per_label 100 100 (fun _ => .ok) [] ⟨0, false, 0⟩
      (fun _ => rfl)).2 labelWithBox ⟨1, false, 0⟩ _ hp

/-- C5: a label with `N` instances each carrying a bounding box gets
exactly `N` outlines and `N` captions, all in the single color assigned to
the label; each outline is a closed polyline of 5 points whose last point
equals the first, and each caption reads
`"{label_name} ({instance_confidence:.1f}%)"` at `x = left + 5`. -/
theorem label_rendering_complete (W H : ℚ) (lab : Label) (s : RState)
    (hbox : ∀ i ∈ lab.instances, i.boundingBox.isSome) :
    (((renderLabel W H (fun _ => .ok) lab s).events.filterMap lineOf).length =
      lab.instances.length) ∧
    (((renderLabel W H (fun _ => .ok) lab s).events.filterMap textOf).length =
      lab.instances.length) ∧
    (∀ p ∈ (renderLabel W H (fun _ => .ok) lab s).events.filterMap lineOf,
      p.2 = colors.getD (s.colorIndex % colors.length) "" ∧
      p.1.length = 5 ∧ p.1.getLast? = p.1.head?) ∧
    (∀ t ∈ (renderLabel W H (fun _ => .ok) lab s).events.filterMap textOf,
      t.2.2 = colors.getD (s.colorIndex % colors.length) "" ∧
      ∃ i ∈ lab.instances, ∃ b, i.boundingBox = some b ∧
        t.1 = (W * b.left + 5, textYPosition (H * b.top) (H * b.height) H) ∧
        t.2.1 = lab.name ++ " (" ++ formatFixed 1 i.confidence ++ "%)") := by
  by_cases hemp : lab.instances.isEmpty
  · rw [List.isEmpty_iff] at hemp
    refine ⟨?_, ?_, ?_, ?_⟩ <;> simp [renderLabel, hemp]
  · have hlab : (renderLabel W H (fun _ => .ok) lab s).events =
        (renderInstances W H lab.name (colors.getD (s.colorIndex % colors.length) "")
          (fun _ => .ok) lab.instances
          { s with colorIndex := s.colorIndex + 1 }).events := by
      rw [renderLabel, if_neg hemp]
    have hline := renderInstances_lineOf W H lab.name
      (colors.getD (s.colorIndex % colors.length) "") (fun _ => .ok) (fun _ => rfl)
      lab.instances { s with colorIndex := s.colorIndex + 1 }
    refine ⟨?_, ?_, ?_, ?_⟩
    · rw [hlab, hline]
      exact length_filterMap_boundingBox _ lab.instances hbox
    · rw [hlab, renderInstances_textOf_ok]
      exact length_filterMap_boundingBox _ lab.instances hbox
    · intro p hp
      rw [hlab, hline] at hp
      obtain ⟨i, _, hfi⟩ := List.mem_filterMap.mp hp
      obtain ⟨b, _, hpb⟩ := Option.map_eq_some'.mp hfi
      rw [← hpb]
      exact ⟨rfl, rfl, rfl⟩
    · intro t ht
      rw [hlab, renderInstances_textOf_ok] at ht
      obtain ⟨i, hi, hfi⟩ := List.mem_filterMap.mp ht
      obtain ⟨b, hb, hpb⟩ := Option.map_eq_some'.mp hfi
      rw [← hpb]
      exact ⟨rfl, i, hi, b, hb, rfl, rfl⟩

/-- Witness for `label_rendering_complete`: a label with two boxed
instances draws two outlines and two captions. -/
theorem label_rendering_complete_witness :
    (((renderLabel 200 100 (fun _ => .ok) labelTwoBoxes ⟨0, false, 0⟩).events.filterMap
      lineOf).length = labelTwoBoxes.instances.length) ∧
    (((renderLabel 200 100 (fun _ => .ok) labelTwoBoxes ⟨0, false, 0⟩).events.filterMap
      textOf).length = labelTwoBoxes.instances.length) :=
  ⟨(label_rendering_complete 200 100 labelTwoBoxes ⟨0, false, 0⟩ (by decide)).1,
   (label_rendering_complete 200 100 labelTwoBoxes ⟨0, false, 0⟩ (by decide)).2.1⟩

/-- C6: when `detect_labels` returns an empty labels list, the trace
contains the no-labels message and no object-store fetch, no image
decoding, no drawing call, and no display occur on that run. -/
theorem no_labels_short_circuit (bucketName imageKey : String) (maxLabels : ℤ)
    (minConfidence : ℚ) (p r er : Option String)
    (fetch : Except AwsFailure Img) (ff : ℕ → CaptionOutcome) :
    (Event.print "No labels detected or labels did not meet the minimum confidence level." ∈
      analyzeImage bucketName imageKey maxLabels minConfidence p r er (.ok []) fetch ff) ∧
    (analyzeImage bucketName imageKey maxLabels minConfidence p r er
      (.ok []) fetch ff).all nonEffect = true := by
  have h : analyzeImage bucketName imageKey maxLabels minConfidence p r er (.ok []) fetch ff =
      setupEvents bucketName imageKey p r er maxLabels minConfidence ++
        [Event.print "No labels detected or labels did not meet the minimum confidence level."] := by
    simp [analyzeImage]
  constructor
  · rw [h]
    simp
  · rw [h]
    simp only [setupEvents, List.all_append]
    split_ifs <;> simp [nonEffect]

/-- C7: when `detect_labels` raises a `ClientError` with code
`AccessDenied`, the run prints the access-denied message — which contains
the responsible profile name (`--profile` value or `'default'`) — and no
object-store fetch, decode, drawing, or display occurs. -/
theorem access_denied_short_circuit (bucketName imageKey : String) (maxLabels : ℤ)
    (minConfidence : ℚ) (p r er : Option String) (msg estr : String)
    (fetch : Except AwsFailure Img) (ff : ℕ → CaptionOutcome) :
    (Event.print ("Error: Access Denied. Check IAM permissions for S3 or Rekognition for profile '" ++
        profileOrDefault p ++ "'.") ∈
      analyzeImage bucketName imageKey maxLabels minConfidence p r er
        (.error (.clientError "AccessDenied" msg estr)) fetch ff) ∧
    (strHasSub ("Error: Access Denied. Check IAM permissions for S3 or Rekognition for profile '" ++
        profileOrDefault p ++ "'.") (profileOrDefault p) = true) ∧
    ((analyzeImage bucketName imageKey maxLabels minConfidence p r er
        (.error (.clientError "AccessDenied" msg estr)) fetch ff).all nonEffect = true) := by
  have h : analyzeImage bucketName imageKey maxLabels minConfidence p r er
      (.error (.clientError "AccessDenied" msg estr)) fetch ff =
      setupEvents bucketName imageKey p r er maxLabels minConfidence ++
        [Event.print ("Error: Access Denied. Check IAM permissions for S3 or Rekognition for profile '" ++
          profileOrDefault p ++ "'."),
         Event.print ("Details: " ++ msg)] := by
    simp [analyzeImage, awsFailureEvents, clientErrorEvents]
  refine ⟨?_, strHasSub_append _ _ _, ?_⟩
  · rw [h]
    simp
  · rw [h]
    simp only [setupEvents, List.all_append]
    split_ifs <;> simp [nonEffect]

/-- C8 counterexample: a persistent font/resource failure (the fallback
`draw.text` of line 155 raises as well) is fatal: with two boxed instances
and every caption attempt failing through, only the first instance gets an
outline, the first caption's exception escapes the loop, and the run ends
at the catch-all handler (generic message, then traceback) without ever
reaching `image.show` — refuting the claim that the renderer continues
processing every remaining instance rather than terminating the run. -/
theorem font_failure_fatal_cex :
    (((renderLabels 100 100 (fun _ => .fatal "cannot open resource" "cannot open resource")
        [labelTwoBoxes] ⟨0, false, 0⟩).events.filterMap lineOf).length = 1) ∧
    (totalBoxedInstances [labelTwoBoxes] = 2) ∧
    ((renderLabels 100 100 (fun _ => .fatal "cannot open resource" "cannot open resource")
        [labelTwoBoxes] ⟨0, false, 0⟩).raised = some "cannot open resource") ∧
    ((analyzeImage "b" "k" 10 75 none none none (.ok [labelTwoBoxes]) (.ok ⟨100, 100⟩)
        (fun _ => .fatal "cannot open resource" "cannot open resource")).all
      (fun e => !isShowImage e) = true) ∧
    ((analyzeImage "b" "k" 10 75 none none none (.ok [labelTwoBoxes]) (.ok ⟨100, 100⟩)
        (fun _ => .fatal "cannot open resource" "cannot open resource")).getLast? =
      some Event.printTraceback) ∧
    ((analyzeImage "b" "k" 10 75 none none none (.ok [labelTwoBoxes]) (.ok ⟨100, 100⟩)
        (fun _ => .fatal "cannot open resource" "cannot open resource")).reverse[1]? =
      some (.print ("An unexpected error occurred: " ++ "cannot open resource"))) := by
  refine ⟨by decide, by decide, by decide, by decide, by decide, by decide⟩

/-- C8 amended: a failure of the styled caption draw (line 148) is
non-fatal only insofar as the fallback bare-name draw (line 155) succeeds.
For every failure pattern without a fatal outcome, each boxed instance
still gets its outline and the run reaches the display; on the fallback
path the caption is the bare label name drawn without styling — on top of
the black background rectangle already drawn at line 147, which is the
same rectangle as on the normal path — and the loop continues.  When the
fallback draw itself raises, no caption is drawn and the exception escapes
the loop. -/
theorem font_fallback_policy (W H : ℚ) (ls : List Label) (s : RState)
    (ff : ℕ → CaptionOutcome) (nm c : String) (conf : ℚ) (b : BoundingBox)
    (emsg efatal : String) (bucketName imageKey : String) (maxLabels : ℤ)
    (minConfidence : ℚ) (p r er : Option String) (img : Img) (l0 : Label)
    (hnf : ∀ n, (ff n).isFatal = false) :
    (((renderLabels W H ff ls s).events.filterMap lineOf).length =
      totalBoxedInstances ls) ∧
    ((drawBoxedInstance W H nm c conf b (.fallback emsg)).1.filterMap textOf =
      [((W * b.left + 5, textYPosition (H * b.top) (H * b.height) H), nm, c)]) ∧
    ((drawBoxedInstance W H nm c conf b (.fallback emsg)).1.filterMap rectOf =
      (drawBoxedInstance W H nm c conf b .ok).1.filterMap rectOf) ∧
    ((drawBoxedInstance W H nm c conf b (.fallback emsg)).2 = none) ∧
    ((drawBoxedInstance W H nm c conf b (.fatal emsg efatal)).1.filterMap textOf = []) ∧
    ((drawBoxedInstance W H nm c conf b (.fatal emsg efatal)).2 = some efatal) ∧
    (Event.showImage ("Analyzed: " ++ imageKey) ∈
      analyzeImage bucketName imageKey maxLabels minConfidence p r er
        (.ok (l0 :: ls)) (.ok img) ff) := by
  refine ⟨renderLabels_lineOf_length W H ff hnf ls s, ?_, ?_, ?_, ?_, ?_, ?_⟩
  · simp [drawBoxedInstance, textOf]
  · simp [drawBoxedInstance, rectOf]
  · simp [drawBoxedInstance]
  · simp [drawBoxedInstance, textOf]
  · simp [drawBoxedInstance]
  · have hr : (renderLabels (img.width : ℚ) (img.height : ℚ) ff (l0 :: ls)
        ⟨0, false, 0⟩).raised = none := renderLabels_raised _ _ ff hnf _ _
    simp [analyzeImage, hr]

/-- Witness for `font_fallback_policy` with the all-ok pattern on a
two-boxed-instance label: both outlines drawn, display reached. -/
theorem font_fallback_policy_witness :
    (((renderLabels 100 100 (fun _ => .ok) [labelTwoBoxes] ⟨0, false, 0⟩).events.filterMap
      lineOf).length = totalBoxedInstances [labelTwoBoxes]) ∧
    (Event.showImage ("Analyzed: " ++ "k") ∈
      analyzeImage "b" "k" 10 75 none none none (.ok (labelNoBox :: [labelTwoBoxes]))
        (.ok ⟨100, 100⟩) (fun _ => .ok)) := by
  have h := font_fallback_policy 100 100 [labelTwoBoxes] ⟨0, false, 0⟩
    (fun _ => CaptionOutcome.ok) "n" "c" 1 exBox "e" "e2" "b" "k" 10 75
    none none none ⟨100, 100⟩ labelNoBox (fun _ => rfl)
  exact ⟨h.1, h.2.2.2.2.2.2⟩

end ImageAnalyzer
